import Mathlib

/-!
Shallow embedding of the Urban Issue Reporting Platform's lifecycle,
notification, rate-guard and realtime-broadcast code
(`models/Issue.js`, `models/Notification.js`, `routes/issues.js`,
`middleware/auth.js`, `utils/socket.js`), with theorems checking the
natural-language specification against it.
Timestamps are modelled as naturals (milliseconds); Mongo object ids as
naturals; JS strings as `String`.
-/

namespace Urban

/-- The seven issue statuses of the `status` enum in `models/Issue.js`. -/
inductive Status
  | submitted
  | acknowledged
  | in_progress
  | under_review
  | resolved
  | closed
  | rejected
deriving DecidableEq

/-- The string form of a status, as interpolated into JS template strings. -/
def Status.str : Status → String
  | .submitted => "submitted"
  | .acknowledged => "acknowledged"
  | .in_progress => "in_progress"
  | .under_review => "under_review"
  | .resolved => "resolved"
  | .closed => "closed"
  | .rejected => "rejected"

/-- User roles from `models/User.js` / the route middleware. -/
inductive Role
  | admin
  | department_head
  | field_officer
  | citizen
deriving DecidableEq

/-- The string form of a role, as used for role room names. -/
def Role.str : Role → String
  | .admin => "admin"
  | .department_head => "department_head"
  | .field_officer => "field_officer"
  | .citizen => "citizen"

/-- An authenticated request actor (`req.user` after `authenticate`). -/
structure Actor where
  id : Nat
  role : Role
  department : String
deriving DecidableEq

/-- The `metadata` mixed field of a timeline entry, restricted to the shapes
the code actually stores. -/
inductive Metadata
  | empty
  | statusChange (oldStatus newStatus : Status) (notes : String)
  | assignment (assignedUser : Option Nat) (department : String)
  | updatedFields (fields : List String)
deriving DecidableEq

/-- One entry of `issue.timeline` (schema in `models/Issue.js`). -/
structure TimelineEntry where
  action : String
  description : String
  performedBy : Nat
  timestamp : Nat
  metadata : Metadata
deriving DecidableEq

/-- One entry of `issue.upvotes`: `{ user, timestamp }`. -/
structure Upvote where
  user : Nat
  timestamp : Nat
deriving DecidableEq

/-- The fields of an `Issue` document that the lifecycle, upvote and status
routes read or write. -/
structure Issue where
  title : String
  category : String
  status : Status
  reportedBy : Nat
  timeline : List TimelineEntry
  upvotes : List Upvote
  estimatedResolutionTime : Option Nat
  actualResolutionTime : Option Nat
deriving DecidableEq

/-- `issueSchema.methods.addTimelineEntry`: pushes one entry onto
`this.timeline`.  The schema default stamps the current time on the new
entry, passed here explicitly as `now`. -/
def Issue.addTimelineEntry (issue : Issue) (action description : String)
    (performedBy : Nat) (now : Nat) (metadata : Metadata) : Issue :=
  { issue with
    timeline := issue.timeline ++
      [{ action, description, performedBy, timestamp := now, metadata }] }

/-- `issueSchema.methods.updateStatus`: records the old status, sets the new
one, appends one timeline entry describing the change, and stamps
`actualResolutionTime` when the new status is `resolved`. -/
def Issue.updateStatus (issue : Issue) (newStatus : Status) (performedBy : Nat)
    (notes : String) (now : Nat) : Issue :=
  let oldStatus := issue.status
  let issue1 := { issue with status := newStatus }
  let issue2 := issue1.addTimelineEntry newStatus.str
    ("Status changed from " ++ oldStatus.str ++ " to " ++ newStatus.str ++
      (if notes = "" then "" else ": " ++ notes))
    performedBy now (Metadata.statusChange oldStatus newStatus notes)
  if newStatus = Status.resolved then
    { issue2 with actualResolutionTime := some now }
  else
    issue2

/-- The timeline entry that `updateStatus` appends when the issue currently
has status `cur`. -/
def statusEntry (cur : Status) (newStatus : Status) (performedBy : Nat)
    (notes : String) (now : Nat) : TimelineEntry :=
  { action := newStatus.str
    description := "Status changed from " ++ cur.str ++ " to " ++ newStatus.str ++
      (if notes = "" then "" else ": " ++ notes)
    performedBy
    timestamp := now
    metadata := Metadata.statusChange cur newStatus notes }

/-- One status-transition request: target status, actor id, notes, time. -/
structure TransitionReq where
  newStatus : Status
  performedBy : Nat
  notes : String
  now : Nat
deriving DecidableEq

/-- Apply a sequence of `updateStatus` calls to an issue, in order. -/
def applyTransitions (issue : Issue) (ts : List TransitionReq) : Issue :=
  ts.foldl (fun i t => i.updateStatus t.newStatus t.performedBy t.notes t.now) issue

/-- The timeline entries that a sequence of transitions produces, given the
status the issue holds when the first of them is applied. -/
def transitionEntries (cur : Status) : List TransitionReq → List TimelineEntry
  | [] => []
  | t :: ts =>
      statusEntry cur t.newStatus t.performedBy t.notes t.now ::
        transitionEntries t.newStatus ts

/-- The error responses the routes and middleware send, by HTTP status code:
400 validation failure, 401 authentication failure, 403 access denied,
404 not found, 500 server error, 429 rate limited.  The code defines no
invalid-transition error of any kind. -/
inductive ApiError
  | validationFailed
  | unauthorized
  | forbidden
  | notFound
  | serverError
  | rateLimited
deriving DecidableEq

/-- The fields of a `Notification` document that `createNotification` callers
set in `routes/issues.js`. -/
structure Notification where
  recipient : Nat
  sender : Option Nat
  type : String
  title : String
  message : String
  relatedIssue : Option Nat
  priority : String
deriving DecidableEq

/-- The issue collection, keyed by issue id. -/
def IssueDb := List (Nat × Issue)

/-- `Issue.findById`. -/
def findIssue (db : IssueDb) (id : Nat) : Option Issue :=
  (db.find? (fun p => p.1 == id)).map (fun p => p.2)

/-- `issue.save()` writing back a fetched document. -/
def saveIssue (db : IssueDb) (id : Nat) (issue : Issue) : IssueDb :=
  db.map (fun p => if p.1 == id then (p.1, issue) else p)

/-- Outcome of the `PATCH /:id/status` handler: the issue collection and the
notification collection after the request, and the response. -/
structure StatusPatchOutcome where
  db : IssueDb
  notifs : List Notification
  result : Except ApiError Issue

/-- The `PATCH /:id/status` pipeline of `routes/issues.js`:
`authorize('admin', 'department_head', 'field_officer')`, the
express-validator rules (the status enum is carried by the `Status` type;
notes must not exceed 500 characters), `Issue.findById`, the department
check for non-admin users, `issue.updateStatus`, the optional
`estimatedResolutionTime` write, `issue.save()`, and
`Notification.createNotification` for the issue reporter. -/
def patchStatusHandler (db : IssueDb) (notifs : List Notification)
    (issueId : Nat) (actor : Actor) (newStatus : Status) (notes : String)
    (est : Option Nat) (now : Nat) : StatusPatchOutcome :=
  if ¬ (actor.role = Role.admin ∨ actor.role = Role.department_head ∨
        actor.role = Role.field_officer) then
    ⟨db, notifs, .error .forbidden⟩
  else if 500 < notes.length then
    ⟨db, notifs, .error .validationFailed⟩
  else
    match findIssue db issueId with
    | none => ⟨db, notifs, .error .notFound⟩
    | some issue =>
      if actor.role ≠ Role.admin ∧ actor.department ≠ issue.category then
        ⟨db, notifs, .error .forbidden⟩
      else
        let oldStatus := issue.status
        let issue1 := issue.updateStatus newStatus actor.id notes now
        let issue2 :=
          match est with
          | some e => { issue1 with estimatedResolutionTime := some e }
          | none => issue1
        let notif : Notification :=
          { recipient := issue.reportedBy
            sender := some actor.id
            type := "issue_updated"
            title := "Issue Status Updated"
            message := "Your issue \"" ++ issue.title ++
              "\" status has been changed from " ++ oldStatus.str ++ " to " ++
              newStatus.str ++ (if notes = "" then "" else ": " ++ notes)
            relatedIssue := some issueId
            priority := if newStatus = Status.resolved then "high" else "medium" }
        ⟨saveIssue db issueId issue2, notifs ++ [notif], .ok issue2⟩

theorem updateStatus_timeline (issue : Issue) (s : Status) (who : Nat)
    (notes : String) (now : Nat) :
    (issue.updateStatus s who notes now).timeline =
      issue.timeline ++ [statusEntry issue.status s who notes now] := by
  unfold Issue.updateStatus Issue.addTimelineEntry statusEntry
  split <;> split <;> rfl

theorem updateStatus_status (issue : Issue) (s : Status) (who : Nat)
    (notes : String) (now : Nat) :
    (issue.updateStatus s who notes now).status = s := by
  unfold Issue.updateStatus Issue.addTimelineEntry
  split <;> split <;> rfl

theorem applyTransitions_timeline (issue : Issue) (ts : List TransitionReq) :
    (applyTransitions issue ts).timeline =
      issue.timeline ++ transitionEntries issue.status ts := by
  induction ts generalizing issue with
  | nil => simp [applyTransitions, transitionEntries]
  | cons t ts ih =>
    have hstep : applyTransitions issue (t :: ts) =
        applyTransitions (issue.updateStatus t.newStatus t.performedBy t.notes t.now) ts := rfl
    rw [hstep, ih, updateStatus_timeline, updateStatus_status, transitionEntries]
    simp

theorem transitionEntries_length (cur : Status) (ts : List TransitionReq) :
    (transitionEntries cur ts).length = ts.length := by
  induction ts generalizing cur with
  | nil => rfl
  | cons t ts ih => simp [transitionEntries, ih]

/-- C2: each successful status transition appends exactly one timeline entry
(recording old status, new status and notes in its metadata) and leaves all
existing entries untouched, so any sequence of transitions extends the
timeline by exactly its own entries, in application order, and the timeline
length grows by one per transition. -/
theorem timeline_records_every_transition_in_order (issue : Issue)
    (ts : List TransitionReq) :
    (applyTransitions issue ts).timeline =
      issue.timeline ++ transitionEntries issue.status ts
    ∧ (applyTransitions issue ts).timeline.length =
      issue.timeline.length + ts.length
    ∧ ∀ t : TransitionReq,
        (issue.updateStatus t.newStatus t.performedBy t.notes t.now).timeline =
          issue.timeline ++
            [statusEntry issue.status t.newStatus t.performedBy t.notes t.now] := by
  refine ⟨applyTransitions_timeline issue ts, ?_, fun t => updateStatus_timeline _ _ _ _ _⟩
  rw [applyTransitions_timeline]
  simp [transitionEntries_length]

/-- C6: a department head or field officer whose department differs from the
issue's category gets a 403 response, a request naming an unknown issue gets
a 404 response, and in both cases neither the issue collection nor the
notification collection is changed. -/
theorem status_update_failure_no_mutation (db : IssueDb)
    (notifs : List Notification) (issueId : Nat) (actor : Actor)
    (newStatus : Status) (notes : String) (est : Option Nat) (now : Nat) :
    ((∃ issue, findIssue db issueId = some issue ∧
        (actor.role = Role.department_head ∨ actor.role = Role.field_officer) ∧
        actor.department ≠ issue.category ∧ notes.length ≤ 500) →
      patchStatusHandler db notifs issueId actor newStatus notes est now =
        ⟨db, notifs, .error .forbidden⟩)
    ∧ (((actor.role = Role.admin ∨ actor.role = Role.department_head ∨
          actor.role = Role.field_officer) ∧ notes.length ≤ 500 ∧
          findIssue db issueId = none) →
      patchStatusHandler db notifs issueId actor newStatus notes est now =
        ⟨db, notifs, .error .notFound⟩) := by
  constructor
  · rintro ⟨issue, hfound, hrole, hdept, h500⟩
    have hroles : actor.role = Role.admin ∨ actor.role = Role.department_head ∨
        actor.role = Role.field_officer := by
      rcases hrole with h | h
      · exact Or.inr (Or.inl h)
      · exact Or.inr (Or.inr h)
    have hnadmin : actor.role ≠ Role.admin := by
      intro hadm
      rcases hrole with h | h <;> rw [hadm] at h <;> exact Role.noConfusion h
    unfold patchStatusHandler
    rw [if_neg (not_not_intro hroles), if_neg (by omega)]
    simp only [hfound]
    rw [if_pos ⟨hnadmin, hdept⟩]
  · rintro ⟨hroles, h500, hnone⟩
    unfold patchStatusHandler
    rw [if_neg (not_not_intro hroles), if_neg (by omega)]
    simp only [hnone]

/-- A concrete issue in a terminal status, for witness instantiations. -/
def sampleIssue : Issue :=
  { title := "Pothole on Main Road", category := "roads",
    status := Status.closed, reportedBy := 2, timeline := [], upvotes := [],
    estimatedResolutionTime := none, actualResolutionTime := none }

/-- A one-issue collection holding `sampleIssue` under id 1. -/
def sampleDb : IssueDb := [(1, sampleIssue)]

/-- A concrete admin actor. -/
def sampleAdmin : Actor := { id := 10, role := Role.admin, department := "general" }

/-- A concrete field officer of the water department. -/
def sampleOfficer : Actor := { id := 11, role := Role.field_officer, department := "water" }

/-- Witness for C6: the water officer is refused on the roads issue with a
403 and nothing changes; an unknown issue id yields a 404 and nothing
changes. -/
theorem status_update_failure_no_mutation_witness :
    patchStatusHandler sampleDb [] 1 sampleOfficer Status.acknowledged "" none 5 =
      ⟨sampleDb, [], .error .forbidden⟩ ∧
    patchStatusHandler sampleDb [] 99 sampleAdmin Status.acknowledged "" none 5 =
      ⟨sampleDb, [], .error .notFound⟩ :=
  ⟨(status_update_failure_no_mutation sampleDb [] 1 sampleOfficer
      Status.acknowledged "" none 5).1
      ⟨sampleIssue, rfl, Or.inr rfl, by decide, by decide⟩,
   (status_update_failure_no_mutation sampleDb [] 99 sampleAdmin
      Status.acknowledged "" none 5).2 ⟨Or.inl rfl, by decide, rfl⟩⟩

/-- The notification that `POST /` builds for one department user
(`routes/issues.js`, the `notificationPromises` map). -/
def mkIssueCreatedNotification (recipient sender issueId : Nat)
    (category title priority : String) : Notification :=
  { recipient
    sender := some sender
    type := "issue_created"
    title := "New Issue Reported"
    message := "A new " ++ category ++ " issue has been reported: \"" ++ title ++ "\""
    relatedIssue := some issueId
    priority := if priority = "critical" then "urgent" else "medium" }

/-- The fan-out of `createNotification` calls that
`departmentUsers.map(...)` would start (lines 345-359 of the handler).
Each call would run to completion independently of the others.  Returns
the persisted records and the recipients whose save was rejected.  This
code is unreachable in the handler as written: see
`resolveDepartmentUsers`. -/
def runNotificationPromises (recipients : List Nat) (mk : Nat → Notification)
    (saveFails : Nat → Bool) : List Notification × List Nat :=
  match recipients with
  | [] => ([], [])
  | r :: rs =>
    let rest := runNotificationPromises rs mk saveFails
    if saveFails r then (rest.1, r :: rest.2) else (mk r :: rest.1, rest.2)

/-- `const departmentUsers = await User.find({...})` in the `POST /`
handler.  `routes/issues.js` requires Issue, Comment, Notification, the
auth middleware and cloudinary, but never requires or defines `User`, so
evaluating this expression throws `ReferenceError: User is not defined` on
every request — whatever users (`candidates`) the collection would have
matched. -/
def resolveDepartmentUsers (candidates : List Nat) :
    Except ApiError (List Nat) :=
  .error .serverError

/-- The notification phase of the `POST /` handler: resolve the department
recipients, start one `createNotification` per recipient, and await
`Promise.all` over them.  Because the recipient resolution throws (see
`resolveDepartmentUsers`), control jumps to the catch block — a 500
response — before any `createNotification` call starts; the fan-out branch
is dead code and no Notification record is ever persisted by this
handler. -/
def postIssueNotifyPhase (candidates : List Nat) (sender issueId : Nat)
    (category title priority : String) (saveFails : Nat → Bool) :
    List Notification × Except ApiError Unit :=
  match resolveDepartmentUsers candidates with
  | .error e => ([], .error e)
  | .ok deptUsers =>
    let run := runNotificationPromises deptUsers
      (fun u => mkIssueCreatedNotification u sender issueId category title priority)
      saveFails
    (run.1, if run.2.isEmpty then .ok () else .error .serverError)

/-- C3 counterexample: at the claim's scenario — three department
recipients of which exactly one's save would fail — the `POST /` handler
persists zero Notification records (not two) and the triggering request
fails with a 500: the handler evaluates the undefined identifier `User`
while resolving recipients and throws before any `createNotification`
call starts. -/
theorem notification_fanout_unreachable_counterexample :
    (postIssueNotifyPhase [1, 2, 3] 9 7 "roads" "Pothole on Main Road"
        "medium" (fun u => u == 2)).1.length = 0
    ∧ (postIssueNotifyPhase [1, 2, 3] 9 7 "roads" "Pothole on Main Road"
        "medium" (fun u => u == 2)).2 = .error .serverError :=
  ⟨rfl, rfl⟩

/-- C3 amended: the notification fan-out of `POST /` is unreachable.  For
every set of candidate recipients and every per-recipient save outcome,
the handler's notification phase persists no record and fails the request
as a whole with a 500, because `routes/issues.js` never imports or defines
`User` and the recipient-resolution step throws `ReferenceError` first;
in particular no per-recipient success/error report is ever produced. -/
theorem notification_phase_always_throws (candidates : List Nat)
    (sender issueId : Nat) (category title priority : String)
    (saveFails : Nat → Bool) :
    postIssueNotifyPhase candidates sender issueId category title priority
        saveFails =
      ([], .error .serverError) :=
  rfl

/-- `rateLimit` from `middleware/auth.js`: on each call the stored attempt
times are filtered to those within the trailing window; if at least
`maxRequests` remain the call is denied (and the stored list is left as it
was), otherwise the pruned list plus the current time is stored and the
call passes. -/
def rateAllow (stored : List Nat) (now maxRequests windowMs : Nat) :
    Bool × List Nat :=
  if maxRequests ≤ (stored.filter (fun t => now - t < windowMs)).length then
    (false, stored)
  else
    (true, stored.filter (fun t => now - t < windowMs) ++ [now])

/-- A sequence of calls to the guard for one key, threading the stored
attempt list. -/
def runRate (stored : List Nat) (times : List Nat) (maxRequests windowMs : Nat) :
    List Bool × List Nat :=
  match times with
  | [] => ([], stored)
  | t :: ts =>
    let step := rateAllow stored t maxRequests windowMs
    let rest := runRate step.2 ts maxRequests windowMs
    (step.1 :: rest.1, rest.2)

theorem filter_eq_self_of_fresh (l : List Nat) (now w : Nat)
    (h : ∀ t ∈ l, now - t < w) :
    l.filter (fun t => now - t < w) = l := by
  induction l with
  | nil => rfl
  | cons a as ih =>
    rw [List.filter_cons]
    have ha : now - a < w := h a (List.mem_cons_self a as)
    simp [ha, ih (fun t ht => h t (List.mem_cons_of_mem a ht))]

theorem rateAllow_fresh (stored : List Nat) (now m w : Nat)
    (h : ∀ t ∈ stored, now - t < w) :
    rateAllow stored now m w =
      if m ≤ stored.length then (false, stored) else (true, stored ++ [now]) := by
  unfold rateAllow
  rw [filter_eq_self_of_fresh stored now w h]

/-- C4: six calls for one key within a single 1000 ms window pass exactly
five times and are denied on the sixth; the decision on every call only
counts attempts still inside the trailing window, and an allowed call
stores exactly the pruned attempts plus the current one — pruning happens
lazily inside the call, there is no background sweep. -/
theorem rate_guard_allows_first_five_then_denies
    (t1 t2 t3 t4 t5 t6 : Nat)
    (h12 : t1 ≤ t2) (h23 : t2 ≤ t3) (h34 : t3 ≤ t4) (h45 : t4 ≤ t5)
    (h56 : t5 ≤ t6) (hw : t6 - t1 < 1000) :
    (runRate [] [t1, t2, t3, t4, t5, t6] 5 1000).1 =
      [true, true, true, true, true, false]
    ∧ (∀ (stored : List Nat) (now m w : Nat),
        (rateAllow stored now m w).1 =
          (rateAllow (stored.filter (fun t => now - t < w)) now m w).1)
    ∧ (∀ (stored : List Nat) (now m w : Nat),
        (rateAllow stored now m w).1 = true →
        (rateAllow stored now m w).2 =
          stored.filter (fun t => now - t < w) ++ [now]) := by
  refine ⟨?_, ?_, ?_⟩
  · have s1 : rateAllow [] t1 5 1000 = (true, [t1]) := by
      have hf : ∀ t ∈ ([] : List Nat), t1 - t < 1000 := by intro t ht; cases ht
      rw [rateAllow_fresh _ _ _ _ hf]; simp
    have s2 : rateAllow [t1] t2 5 1000 = (true, [t1, t2]) := by
      have hf : ∀ t ∈ [t1], t2 - t < 1000 := by intro t ht; simp at ht; omega
      rw [rateAllow_fresh _ _ _ _ hf]; simp
    have s3 : rateAllow [t1, t2] t3 5 1000 = (true, [t1, t2, t3]) := by
      have hf : ∀ t ∈ [t1, t2], t3 - t < 1000 := by intro t ht; simp at ht; omega
      rw [rateAllow_fresh _ _ _ _ hf]; simp
    have s4 : rateAllow [t1, t2, t3] t4 5 1000 = (true, [t1, t2, t3, t4]) := by
      have hf : ∀ t ∈ [t1, t2, t3], t4 - t < 1000 := by intro t ht; simp at ht; omega
      rw [rateAllow_fresh _ _ _ _ hf]; simp
    have s5 : rateAllow [t1, t2, t3, t4] t5 5 1000 = (true, [t1, t2, t3, t4, t5]) := by
      have hf : ∀ t ∈ [t1, t2, t3, t4], t5 - t < 1000 := by
        intro t ht; simp at ht; omega
      rw [rateAllow_fresh _ _ _ _ hf]; simp
    have s6 : rateAllow [t1, t2, t3, t4, t5] t6 5 1000 =
        (false, [t1, t2, t3, t4, t5]) := by
      have hf : ∀ t ∈ [t1, t2, t3, t4, t5], t6 - t < 1000 := by
        intro t ht; simp at ht; omega
      rw [rateAllow_fresh _ _ _ _ hf]; simp
    simp [runRate, s1, s2, s3, s4, s5, s6]
  · intro stored now m w
    have hidem : (stored.filter (fun t => now - t < w)).filter
        (fun t => now - t < w) = stored.filter (fun t => now - t < w) :=
      filter_eq_self_of_fresh _ now w
        (fun t ht => by simpa using (List.mem_filter.mp ht).2)
    unfold rateAllow
    rw [hidem]
    split <;> rfl
  · intro stored now m w h
    unfold rateAllow at h ⊢
    by_cases hc : m ≤ (stored.filter (fun t => now - t < w)).length
    · simp [hc] at h
    · simp [hc]

/-- Witness for C4: calls at times 10..15 from an empty state. -/
theorem rate_guard_allows_first_five_then_denies_witness :
    (runRate [] [10, 11, 12, 13, 14, 15] 5 1000).1 =
      [true, true, true, true, true, false]
    ∧ (∀ (stored : List Nat) (now m w : Nat),
        (rateAllow stored now m w).1 =
          (rateAllow (stored.filter (fun t => now - t < w)) now m w).1)
    ∧ (∀ (stored : List Nat) (now m w : Nat),
        (rateAllow stored now m w).1 = true →
        (rateAllow stored now m w).2 =
          stored.filter (fun t => now - t < w) ++ [now]) :=
  rate_guard_allows_first_five_then_denies 10 11 12 13 14 15
    (by decide) (by decide) (by decide) (by decide) (by decide) (by decide)

/-- A user document as the socket layer reads it (`utils/socket.js`):
id, names, role, department, active flag.  An absent department is the
empty string (JS `undefined` is falsy, like `''`). -/
structure SUser where
  id : Nat
  firstName : String
  lastName : String
  role : Role
  department : String
  isActive : Bool
deriving DecidableEq

/-- Outcome of `jwt.verify` on a presented token: it throws on a malformed
or expired token, or yields the embedded user id. -/
inductive JwtOutcome
  | invalid
  | expired
  | valid (userId : Nat)
deriving DecidableEq

/-- JS `a || b` on two possibly-absent strings: an absent or empty left
operand falls through to the right one. -/
def jsOr (a b : Option String) : Option String :=
  match a with
  | some s => if s = "" then b else some s
  | none => b

/-- The `io.use` authentication middleware of `utils/socket.js`: picks the
token from `handshake.auth.token` or the `Authorization` header, refuses
when absent, refuses when `jwt.verify` throws (invalid or expired), and
refuses when the id resolves to no user or to an inactive user. -/
def socketAuth (verify : String → JwtOutcome) (users : Nat → Option SUser)
    (authToken headerToken : Option String) : Except String SUser :=
  match jsOr authToken headerToken with
  | none => .error "Authentication token required"
  | some token =>
    if token = "" then .error "Authentication token required"
    else
      match verify token with
      | .invalid => .error "Authentication failed"
      | .expired => .error "Authentication failed"
      | .valid uid =>
        match users uid with
        | none => .error "Invalid user"
        | some user =>
          if user.isActive then .ok user else .error "Invalid user"

/-- One live socket connection: its socket id, the bound user and the rooms
it has joined. -/
structure Connection where
  socketId : Nat
  userId : Nat
  user : SUser
  rooms : List String
deriving DecidableEq

/-- The socket server's connection registry (`io.sockets.sockets`). -/
structure Server where
  connections : List Connection
deriving DecidableEq

/-- A connection attempt: the auth middleware runs first; only a connection
it accepts reaches the `connection` handler, which joins the user room, the
role room, and the department room when a department other than
`general` is set.  A refused attempt changes nothing — in particular it
joins no room. -/
def onConnect (verify : String → JwtOutcome) (users : Nat → Option SUser)
    (srv : Server) (socketId : Nat) (authToken headerToken : Option String) :
    Server × Except String Nat :=
  match socketAuth verify users authToken headerToken with
  | .error e => (srv, .error e)
  | .ok user =>
    let rooms := ["user_" ++ toString user.id, "role_" ++ user.role.str] ++
      (if user.department ≠ "" ∧ user.department ≠ "general" then
        ["dept_" ++ user.department] else [])
    ({ connections := srv.connections ++
        [{ socketId, userId := user.id, user, rooms }] },
     .ok user.id)

/-- One entry of the list `getConnectedUsers` returns.  The source also
reads `socket.connectedAt || new Date()`; `connectedAt` is never assigned
anywhere, so that field always falls back to the wall clock and is omitted
here. -/
structure ConnectedUser where
  id : Nat
  name : String
  role : Role
  department : String
deriving DecidableEq

/-- `getConnectedUsers` of `utils/socket.js`: the empty list when the
module-level `io` handle is still null, otherwise one entry per registered
socket. -/
def getConnectedUsers (io : Option Server) : List ConnectedUser :=
  match io with
  | none => []
  | some srv =>
    srv.connections.map (fun c =>
      { id := c.userId
        name := c.user.firstName ++ " " ++ c.user.lastName
        role := c.user.role
        department := c.user.department })

/-- An emitted realtime event: target room (`none` targets every
connection, as `io.emit` does), event name and payload. -/
structure Emission where
  room : Option String
  event : String
  payload : String
deriving DecidableEq

/-- `emitToUser`: a silent no-op when `io` is null. -/
def emitToUser (io : Option Server) (userId : Nat) (event payload : String) :
    List Emission :=
  match io with
  | none => []
  | some _ => [{ room := some ("user_" ++ toString userId), event, payload }]

/-- `emitToRole`: a silent no-op when `io` is null. -/
def emitToRole (io : Option Server) (role : Role) (event payload : String) :
    List Emission :=
  match io with
  | none => []
  | some _ => [{ room := some ("role_" ++ role.str), event, payload }]

/-- `emitToDepartment`: a silent no-op when `io` is null. -/
def emitToDepartment (io : Option Server) (department : String)
    (event payload : String) : List Emission :=
  match io with
  | none => []
  | some _ => [{ room := some ("dept_" ++ department), event, payload }]

/-- `emitToIssue`: a silent no-op when `io` is null. -/
def emitToIssue (io : Option Server) (issueId : Nat) (event payload : String) :
    List Emission :=
  match io with
  | none => []
  | some _ => [{ room := some ("issue_" ++ toString issueId), event, payload }]

/-- The fields of a notification object that `broadcastNotification`
inspects. -/
structure BroadcastPayload where
  recipient : Option Nat
  type : String
  department : Option String
  payload : String
deriving DecidableEq

/-- `broadcastNotification`: guarded as a whole by `if (io)`; inside, an
emission to the recipient's user room when a recipient is set, plus a
global or department emission for the two special notification types. -/
def broadcastNotification (io : Option Server) (n : BroadcastPayload) :
    List Emission :=
  match io with
  | none => []
  | some srv =>
    (match n.recipient with
     | some r => emitToUser (some srv) r "notification" n.payload
     | none => []) ++
    (if n.type = "system_announcement" then
      [{ room := none, event := "system_notification", payload := n.payload }]
     else if n.type = "department_update" then
      match n.department with
      | some d => emitToDepartment (some srv) d "department_notification" n.payload
      | none => []
     else [])

/-- C5: a connection attempt whose credential is missing, invalid, expired,
or resolves to a missing or inactive user is refused by the auth
middleware; the server state is unchanged, so no room is joined and the
refused connection never appears in `getConnectedUsers`. -/
theorem refused_connection_joins_nothing (verify : String → JwtOutcome)
    (users : Nat → Option SUser) (srv : Server) (socketId : Nat)
    (authToken headerToken : Option String) (e : String)
    (hrefused : socketAuth verify users authToken headerToken = .error e) :
    (onConnect verify users srv socketId authToken headerToken).1 = srv
    ∧ (onConnect verify users srv socketId authToken headerToken).2 = .error e
    ∧ getConnectedUsers
        (some (onConnect verify users srv socketId authToken headerToken).1) =
      getConnectedUsers (some srv)
    ∧ ∀ c ∈ (onConnect verify users srv socketId authToken headerToken).1.connections,
        c ∈ srv.connections := by
  unfold onConnect
  rw [hrefused]
  exact ⟨rfl, rfl, rfl, fun c hc => hc⟩

/-- Witness for C5: an expired token presented to a one-user directory is
refused and the empty server stays empty. -/
theorem refused_connection_joins_nothing_witness :
    socketAuth (fun _ => JwtOutcome.expired) (fun _ => none) (some "tok") none =
      .error "Authentication failed" ∧
    ((onConnect (fun _ => JwtOutcome.expired) (fun _ => none) ⟨[]⟩ 3
        (some "tok") none).1 = ⟨[]⟩
    ∧ (onConnect (fun _ => JwtOutcome.expired) (fun _ => none) ⟨[]⟩ 3
        (some "tok") none).2 = .error "Authentication failed"
    ∧ getConnectedUsers
        (some (onConnect (fun _ => JwtOutcome.expired) (fun _ => none) ⟨[]⟩ 3
          (some "tok") none).1) =
      getConnectedUsers (some ⟨[]⟩)
    ∧ ∀ c ∈ (onConnect (fun _ => JwtOutcome.expired) (fun _ => none) ⟨[]⟩ 3
          (some "tok") none).1.connections,
        c ∈ Server.connections ⟨[]⟩) :=
  ⟨rfl, refused_connection_joins_nothing (fun _ => JwtOutcome.expired)
    (fun _ => none) ⟨[]⟩ 3 (some "tok") none "Authentication failed" rfl⟩

/-- C10: with the module-level `io` handle still null, every emit helper and
`broadcastNotification` is a total no-op producing no emission, and
`getConnectedUsers` returns the empty list; being total Lean functions,
none of them can throw. -/
theorem emit_helpers_noop_when_uninitialized :
    (∀ (userId : Nat) (event payload : String),
      emitToUser none userId event payload = [])
    ∧ (∀ (role : Role) (event payload : String),
      emitToRole none role event payload = [])
    ∧ (∀ (department event payload : String),
      emitToDepartment none department event payload = [])
    ∧ (∀ (issueId : Nat) (event payload : String),
      emitToIssue none issueId event payload = [])
    ∧ (∀ n : BroadcastPayload, broadcastNotification none n = [])
    ∧ getConnectedUsers none = [] :=
  ⟨fun _ _ _ => rfl, fun _ _ _ => rfl, fun _ _ _ => rfl, fun _ _ _ => rfl,
   fun _ => rfl, rfl⟩

/-- The slice of a user document that the upvote route touches:
`req.user._id` and `stats.contributionScore`. -/
structure UserState where
  id : Nat
  contributionScore : Nat
deriving DecidableEq

/-- The response body of `POST /:id/upvote`. -/
structure UpvoteResponse where
  message : String
  upvoteCount : Nat
  isUpvoted : Bool
deriving DecidableEq

/-- The body of the `POST /:id/upvote` handler once the issue is found:
`findIndex` for an existing upvote by the requester; `splice` it out if
present, else `push` a new `{ user }` entry and `$inc` the requester's
`stats.contributionScore` by 1.  Returns the saved issue, the requester's
user document, and the response body (`upvoteCount` is the new length,
`isUpvoted` is `existingUpvoteIndex === -1`). -/
def toggleUpvote (issue : Issue) (user : UserState) (now : Nat) :
    Issue × UserState × UpvoteResponse :=
  match issue.upvotes.findIdx? (fun uv => uv.user == user.id) with
  | some i =>
    let issue' := { issue with upvotes := issue.upvotes.eraseIdx i }
    (issue', user,
     { message := "Upvote removed", upvoteCount := issue'.upvotes.length,
       isUpvoted := false })
  | none =>
    let issue' :=
      { issue with upvotes := issue.upvotes ++ [{ user := user.id, timestamp := now }] }
    (issue', { user with contributionScore := user.contributionScore + 1 },
     { message := "Issue upvoted", upvoteCount := issue'.upvotes.length,
       isUpvoted := true })

/-- Removing the first upvote by a given user, the effect of the
`findIndex` + `splice` pair. -/
def removeFirstUpvote (uid : Nat) : List Upvote → List Upvote
  | [] => []
  | uv :: rest => if uv.user == uid then rest else uv :: removeFirstUpvote uid rest

theorem eraseIdx_findIdx?_eq_removeFirst (uid : Nat) :
    ∀ (l : List Upvote) (i : Nat),
      l.findIdx? (fun uv => uv.user == uid) = some i →
      l.eraseIdx i = removeFirstUpvote uid l := by
  intro l
  induction l with
  | nil => intro i h; simp [List.findIdx?_nil] at h
  | cons uv rest ih =>
    intro i h
    rw [List.findIdx?_cons] at h
    cases hp : (uv.user == uid) with
    | true =>
      rw [hp, if_pos rfl] at h
      obtain rfl : i = 0 := by simpa using h.symm
      simp [removeFirstUpvote, hp]
    | false =>
      rw [hp, if_neg (by simp), List.findIdx?_succ] at h
      cases hfi : rest.findIdx? (fun uv => uv.user == uid) with
      | none => rw [hfi] at h; simp at h
      | some j =>
        rw [hfi] at h
        obtain rfl : i = j + 1 := by simpa using h.symm
        simp only [List.eraseIdx_cons_succ, removeFirstUpvote]
        rw [if_neg (by simp [hp]), ih j hfi]

theorem removeFirstUpvote_append_singleton (uid : Nat) (l : List Upvote)
    (a : Upvote) (hl : ∀ uv ∈ l, (uv.user == uid) = false)
    (ha : (a.user == uid) = true) :
    removeFirstUpvote uid (l ++ [a]) = l := by
  induction l with
  | nil => simp [removeFirstUpvote, ha]
  | cons x xs ih =>
    have hx := hl x (List.mem_cons_self x xs)
    simp [removeFirstUpvote, hx,
      ih (fun uv hu => hl uv (List.mem_cons_of_mem x hu))]

theorem removeFirstUpvote_length (uid : Nat) (l : List Upvote)
    (h : l.any (fun uv => uv.user == uid) = true) :
    (removeFirstUpvote uid l).length + 1 = l.length := by
  induction l with
  | nil => simp at h
  | cons x xs ih =>
    cases hx : (x.user == uid) with
    | true => simp [removeFirstUpvote, hx]
    | false =>
      have hxs : xs.any (fun uv => uv.user == uid) = true := by
        simpa [hx] using h
      have ihx := ih hxs
      simp only [removeFirstUpvote, List.length_cons]
      rw [if_neg (by simp [hx])]
      simp only [List.length_cons]
      omega

theorem removeFirstUpvote_none_left (uid : Nat) (l : List Upvote)
    (hcount : l.countP (fun uv => uv.user == uid) ≤ 1) :
    (removeFirstUpvote uid l).any (fun uv => uv.user == uid) = false := by
  induction l with
  | nil => simp [removeFirstUpvote]
  | cons x xs ih =>
    cases hx : (x.user == uid) with
    | true =>
      have hcx := hcount
      simp [List.countP_cons, hx] at hcx
      simp only [removeFirstUpvote]
      rw [if_pos (by simp [hx])]
      rw [List.any_eq_false]
      intro uv hu
      simp [hcx uv hu]
    | false =>
      have hcx := hcount
      simp [List.countP_cons, hx] at hcx
      simp only [removeFirstUpvote]
      rw [if_neg (by simp [hx])]
      simp [hx, ih hcx]

theorem toggleUpvote_of_absent (issue : Issue) (user : UserState) (now : Nat)
    (h : issue.upvotes.any (fun uv => uv.user == user.id) = false) :
    toggleUpvote issue user now =
      ({ issue with
          upvotes := issue.upvotes ++ [{ user := user.id, timestamp := now }] },
       { user with contributionScore := user.contributionScore + 1 },
       { message := "Issue upvoted", upvoteCount := issue.upvotes.length + 1,
         isUpvoted := true }) := by
  have hfi : issue.upvotes.findIdx? (fun uv => uv.user == user.id) = none := by
    rw [List.findIdx?_eq_none_iff]
    intro x hx
    have := List.any_eq_false.mp h x hx
    simpa using this
  simp [toggleUpvote, hfi]

theorem toggleUpvote_of_present (issue : Issue) (user : UserState) (now : Nat)
    (h : issue.upvotes.any (fun uv => uv.user == user.id) = true) :
    toggleUpvote issue user now =
      ({ issue with upvotes := removeFirstUpvote user.id issue.upvotes },
       user,
       { message := "Upvote removed",
         upvoteCount := (removeFirstUpvote user.id issue.upvotes).length,
         isUpvoted := false }) := by
  cases hfi : issue.upvotes.findIdx? (fun uv => uv.user == user.id) with
  | none =>
    exfalso
    rw [List.findIdx?_eq_none_iff] at hfi
    obtain ⟨x, hx, hp⟩ := List.any_eq_true.mp h
    exact absurd hp (by simp [hfi x hx])
  | some i =>
    simp [toggleUpvote, hfi, eraseIdx_findIdx?_eq_removeFirst user.id issue.upvotes i hfi]

/-- C8: toggling the upvote twice by the same identity (with no interleaved
operation) returns the upvote list to its original length and the
identity's membership to its original value; the first call appends the
identity's upvote exactly when it was absent, and removes it (shrinking the
list by one and leaving the identity absent) exactly when it was present.
The hypothesis states the reachable-state invariant that an identity holds
at most one upvote on an issue, which the toggle itself maintains. -/
theorem upvote_toggle_round_trip (issue : Issue) (user : UserState) (t1 t2 : Nat)
    (hnodup : issue.upvotes.countP (fun uv => uv.user == user.id) ≤ 1) :
    (toggleUpvote (toggleUpvote issue user t1).1 (toggleUpvote issue user t1).2.1 t2).1.upvotes.length
        = issue.upvotes.length
    ∧ (toggleUpvote (toggleUpvote issue user t1).1 (toggleUpvote issue user t1).2.1 t2).1.upvotes.any
          (fun uv => uv.user == user.id)
        = issue.upvotes.any (fun uv => uv.user == user.id)
    ∧ (issue.upvotes.any (fun uv => uv.user == user.id) = false →
        (toggleUpvote issue user t1).1.upvotes =
          issue.upvotes ++ [{ user := user.id, timestamp := t1 }])
    ∧ (issue.upvotes.any (fun uv => uv.user == user.id) = true →
        (toggleUpvote issue user t1).1.upvotes.length + 1 = issue.upvotes.length
        ∧ (toggleUpvote issue user t1).1.upvotes.any (fun uv => uv.user == user.id) = false)
    ∧ (toggleUpvote issue user t1).2.2.isUpvoted =
        !(issue.upvotes.any (fun uv => uv.user == user.id)) := by
  cases hmem : issue.upvotes.any (fun uv => uv.user == user.id) with
  | false =>
    have h1 := toggleUpvote_of_absent issue user t1 hmem
    rw [h1]
    dsimp only
    have h2 := toggleUpvote_of_present
      ({ issue with upvotes := issue.upvotes ++ [{ user := user.id, timestamp := t1 }] })
      ({ user with contributionScore := user.contributionScore + 1 }) t2
      (by simp)
    rw [h2]
    dsimp only
    have hrm : removeFirstUpvote user.id
        (issue.upvotes ++ [{ user := user.id, timestamp := t1 }]) = issue.upvotes :=
      removeFirstUpvote_append_singleton user.id issue.upvotes _
        (fun uv hu => by
          have := List.any_eq_false.mp hmem uv hu
          simpa using this)
        (by simp)
    rw [hrm]
    simp [hmem]
  | true =>
    have h1 := toggleUpvote_of_present issue user t1 hmem
    rw [h1]
    dsimp only
    have hany2 : (removeFirstUpvote user.id issue.upvotes).any
        (fun uv => uv.user == user.id) = false :=
      removeFirstUpvote_none_left user.id issue.upvotes hnodup
    have h2 := toggleUpvote_of_absent
      ({ issue with upvotes := removeFirstUpvote user.id issue.upvotes }) user t2
      (by simpa using hany2)
    rw [h2]
    dsimp only
    have hlen := removeFirstUpvote_length user.id issue.upvotes hmem
    refine ⟨?_, ?_, ?_, ?_, ?_⟩
    · simp only [List.length_append, List.length_cons, List.length_nil]
      omega
    · simp [List.any_append]
    · intro hfalse
      exact Bool.noConfusion hfalse
    · intro _
      exact ⟨hlen, hany2⟩
    · simp

/-- C9: the toggle's round trip does not restore the voting user's stats:
adding an upvote increments `stats.contributionScore` by 1 but removing one
leaves the score untouched, so two successive toggles leave the issue's
upvote count unchanged while the user's score ends up exactly 1 higher. -/
theorem upvote_score_not_restored_by_round_trip (issue : Issue)
    (user : UserState) (t1 t2 : Nat)
    (hnodup : issue.upvotes.countP (fun uv => uv.user == user.id) ≤ 1) :
    (toggleUpvote (toggleUpvote issue user t1).1 (toggleUpvote issue user t1).2.1 t2).2.1.contributionScore
        = user.contributionScore + 1
    ∧ (toggleUpvote (toggleUpvote issue user t1).1 (toggleUpvote issue user t1).2.1 t2).1.upvotes.length
        = issue.upvotes.length
    ∧ (issue.upvotes.any (fun uv => uv.user == user.id) = false →
        (toggleUpvote issue user t1).2.1.contributionScore = user.contributionScore + 1)
    ∧ (issue.upvotes.any (fun uv => uv.user == user.id) = true →
        (toggleUpvote issue user t1).2.1 = user) := by
  cases hmem : issue.upvotes.any (fun uv => uv.user == user.id) with
  | false =>
    have h1 := toggleUpvote_of_absent issue user t1 hmem
    rw [h1]
    dsimp only
    have h2 := toggleUpvote_of_present
      ({ issue with upvotes := issue.upvotes ++ [{ user := user.id, timestamp := t1 }] })
      ({ user with contributionScore := user.contributionScore + 1 }) t2
      (by simp)
    rw [h2]
    dsimp only
    have hrm : removeFirstUpvote user.id
        (issue.upvotes ++ [{ user := user.id, timestamp := t1 }]) = issue.upvotes :=
      removeFirstUpvote_append_singleton user.id issue.upvotes _
        (fun uv hu => by
          have := List.any_eq_false.mp hmem uv hu
          simpa using this)
        (by simp)
    rw [hrm]
    simp [hmem]
  | true =>
    have h1 := toggleUpvote_of_present issue user t1 hmem
    rw [h1]
    dsimp only
    have hany2 : (removeFirstUpvote user.id issue.upvotes).any
        (fun uv => uv.user == user.id) = false :=
      removeFirstUpvote_none_left user.id issue.upvotes hnodup
    have h2 := toggleUpvote_of_absent
      ({ issue with upvotes := removeFirstUpvote user.id issue.upvotes }) user t2
      (by simpa using hany2)
    rw [h2]
    dsimp only
    have hlen := removeFirstUpvote_length user.id issue.upvotes hmem
    refine ⟨rfl, ?_, ?_, fun _ => rfl⟩
    · simp only [List.length_append, List.length_cons, List.length_nil]
      omega
    · intro hfalse
      exact Bool.noConfusion hfalse

/-- A concrete voting user for the upvote witnesses. -/
def sampleVoter : UserState := { id := 42, contributionScore := 7 }

/-- Witness for C8: double-toggle on the sample issue (no upvotes yet) by
the sample voter restores length and membership. -/
theorem upvote_toggle_round_trip_witness :
    sampleIssue.upvotes.countP (fun uv => uv.user == sampleVoter.id) ≤ 1 ∧
    ((toggleUpvote (toggleUpvote sampleIssue sampleVoter 1).1
          (toggleUpvote sampleIssue sampleVoter 1).2.1 2).1.upvotes.length
        = sampleIssue.upvotes.length
    ∧ (toggleUpvote (toggleUpvote sampleIssue sampleVoter 1).1
          (toggleUpvote sampleIssue sampleVoter 1).2.1 2).1.upvotes.any
          (fun uv => uv.user == sampleVoter.id)
        = sampleIssue.upvotes.any (fun uv => uv.user == sampleVoter.id)
    ∧ (sampleIssue.upvotes.any (fun uv => uv.user == sampleVoter.id) = false →
        (toggleUpvote sampleIssue sampleVoter 1).1.upvotes =
          sampleIssue.upvotes ++ [{ user := sampleVoter.id, timestamp := 1 }])
    ∧ (sampleIssue.upvotes.any (fun uv => uv.user == sampleVoter.id) = true →
        (toggleUpvote sampleIssue sampleVoter 1).1.upvotes.length + 1 =
          sampleIssue.upvotes.length
        ∧ (toggleUpvote sampleIssue sampleVoter 1).1.upvotes.any
            (fun uv => uv.user == sampleVoter.id) = false)
    ∧ (toggleUpvote sampleIssue sampleVoter 1).2.2.isUpvoted =
        !(sampleIssue.upvotes.any (fun uv => uv.user == sampleVoter.id))) :=
  ⟨by decide, upvote_toggle_round_trip sampleIssue sampleVoter 1 2 (by decide)⟩

/-- Witness for C9: the same double-toggle leaves the sample voter's
contribution score at 8 = 7 + 1. -/
theorem upvote_score_not_restored_witness :
    sampleIssue.upvotes.countP (fun uv => uv.user == sampleVoter.id) ≤ 1 ∧
    ((toggleUpvote (toggleUpvote sampleIssue sampleVoter 1).1
          (toggleUpvote sampleIssue sampleVoter 1).2.1 2).2.1.contributionScore
        = sampleVoter.contributionScore + 1
    ∧ (toggleUpvote (toggleUpvote sampleIssue sampleVoter 1).1
          (toggleUpvote sampleIssue sampleVoter 1).2.1 2).1.upvotes.length
        = sampleIssue.upvotes.length
    ∧ (sampleIssue.upvotes.any (fun uv => uv.user == sampleVoter.id) = false →
        (toggleUpvote sampleIssue sampleVoter 1).2.1.contributionScore =
          sampleVoter.contributionScore + 1)
    ∧ (sampleIssue.upvotes.any (fun uv => uv.user == sampleVoter.id) = true →
        (toggleUpvote sampleIssue sampleVoter 1).2.1 = sampleVoter)) :=
  ⟨by decide, upvote_score_not_restored_by_round_trip sampleIssue sampleVoter 1 2 (by decide)⟩

end Urban
